import Mathlib

/-!
Verification development for the citation reconciliation and aggregation
subsystem of `hed_task` (`src/hed_task/summarize_citations.py`).

The Python module is embedded shallowly:

* a `Citation` record models the citation dictionaries found in task detail
  JSON files (every field optional, as in the JSON);
* the persisted `citation_details.json` store (one file per derived citation
  identifier under `citation_data/`) is modelled as a function
  `Store : String → Option StoredFile`, where `StoredFile.corrupt` stands for
  a file whose JSON fails to parse;
* Python's process-seeded string `hash` is modelled as an explicit parameter
  `pyHash : String → Int`; `%` on `Int` in Lean agrees with Python's `%` for
  a positive modulus;
* logging is modelled by a list of `LogEvent`s returned alongside results;
* the functions `extract_citation_id`, `compare_citation_details`,
  `process_citation`, `process_task_citations` and `summarize_citations`
  are translated clause by clause from the source, including the placement
  of the `citation_details = existing_details` assignment inside the
  `task_id not in related_tasks` guard of the conflict branch.
-/

namespace HedTask

/-- A citation dictionary as embedded in a task's detail JSON.  Every field
is optional ( `none` models an absent key, `some ""` an empty value). -/
structure Citation where
  id : Option String := none
  citation_pmid : Option String := none
  citation_url : Option String := none
  citation_desc : Option String := none
  doi : Option String := none
  citation_pubname : Option String := none
  citation_authors : Option String := none
  citation_pubdate : Option String := none
  citation_type : Option String := none
  citation_source : Option String := none
  citation_comment : Option String := none
deriving DecidableEq, Repr

/-- A persisted citation entity (the content of `citation_details.json`),
with every field materialised as a string and the accumulated
`related_tasks` list. -/
structure CitationDetails where
  id : String
  citation_pmid : String
  citation_url : String
  citation_desc : String
  doi : String
  citation_pubname : String
  citation_authors : String
  citation_pubdate : String
  citation_type : String
  citation_source : String
  citation_comment : String
  related_tasks : List String
deriving DecidableEq, Repr

/-- State of a persisted `citation_details.json` file: either parseable
content or a file whose `json.load` raises `JSONDecodeError`. -/
inductive StoredFile where
  | ok (d : CitationDetails)
  | corrupt
deriving DecidableEq, Repr

/-- The `citation_data` directory, keyed by derived citation identifier. -/
abbrev Store := String → Option StoredFile

/-- Writing `citation_details.json` for one identifier. -/
def Store.set (s : Store) (k : String) (v : StoredFile) : Store :=
  fun k2 => if k2 = k then some v else s k2

/-- The store with no citation directories. -/
def emptyStore : Store := fun _ => none

/-- Events emitted through the module logger, as far as the claims refer to
them. -/
inductive LogEvent where
  | conflict (cit_id task_id : String)
  | citationReadError (cit_id : String)
  | detailsMissing (task_id : String)
  | detailsReadError (task_id : String)
  | noCitations (task_id : String)
  | rootMissing
  | taskDataMissing
deriving DecidableEq, Repr

/-- Python truthiness of an optional string: the key is present and the
value non-empty. -/
def truthy : Option String → Bool
  | some s => !s.toList.isEmpty
  | none => false

/-- Python `str.split(sep)` for a one-character separator, on character
lists: `"a//b" ↦ ["a", "", "b"]`, `"" ↦ [""]`. -/
def splitOnChar (sep : Char) : List Char → List (List Char)
  | [] => [[]]
  | c :: rest =>
      match splitOnChar sep rest, decide (c = sep) with
      | r, true => [] :: r
      | [], false => [[c]]
      | g :: gs, false => (c :: g) :: gs

/-- Python `str.startswith(pre)` on character lists. -/
def listStartsWith : List Char → List Char → Bool
  | [], _ => true
  | _ :: _, [] => false
  | p :: ps, c :: cs => decide (p = c) && listStartsWith ps cs

/-- The `for part in reversed(url_parts)` loop of `extract_citation_id`:
the last `/`-separated segment that is non-empty and does not start with
`"http"`. -/
def urlSegment (url : String) : Option String :=
  ((splitOnChar '/' url.toList).reverse.find?
    (fun p => !p.isEmpty && !listStartsWith "http".toList p)).map String.mk

/-- `extract_citation_id` (summarize_citations.py, lines 46-74). -/
def extract_citation_id (pyHash : String → Int) (c : Citation) : String :=
  if truthy c.id then c.id.getD ""
  else if truthy c.citation_pmid then "pmid_" ++ c.citation_pmid.getD ""
  else
    match (if truthy c.citation_url then urlSegment (c.citation_url.getD "") else none) with
    | some seg => "url_" ++ seg
    | none => "desc_" ++ toString (pyHash (c.citation_desc.getD "unknown") % 1000000)

/-- `compare_citation_details` (lines 25-43): equality on the five key
fields `id`, `citation_pmid`, `citation_url`, `citation_desc`, `doi`. -/
def compare_citation_details (existing incoming : CitationDetails) : Bool :=
  existing.id == incoming.id &&
  existing.citation_pmid == incoming.citation_pmid &&
  existing.citation_url == incoming.citation_url &&
  existing.citation_desc == incoming.citation_desc &&
  existing.doi == incoming.doi

/-- The `citation_details` dictionary built at lines 98-111: each field
defaulted to `""`, `related_tasks` initialised to `[task_id]`. -/
def buildCitationDetails (pyHash : String → Int) (c : Citation) (task_id : String) :
    CitationDetails :=
  { id := extract_citation_id pyHash c
    citation_pmid := c.citation_pmid.getD ""
    citation_url := c.citation_url.getD ""
    citation_desc := c.citation_desc.getD ""
    doi := c.doi.getD ""
    citation_pubname := c.citation_pubname.getD ""
    citation_authors := c.citation_authors.getD ""
    citation_pubdate := c.citation_pubdate.getD ""
    citation_type := c.citation_type.getD ""
    citation_source := c.citation_source.getD ""
    citation_comment := c.citation_comment.getD ""
    related_tasks := [task_id] }

/-- One row of `citation_summary.tsv` (the dictionary returned at
lines 149-156). -/
structure Row where
  cit_id : String
  task_id : String
  doi : String
  citation_pmid : String
  citation_url : String
  citation_desc : String
deriving DecidableEq, Repr

/-- The summary row returned by `process_citation`: `cit_id` and `task_id`
from the arguments, the remaining columns read off the finally chosen
`citation_details`. -/
def rowOf (cit_id task_id : String) (d : CitationDetails) : Row :=
  { cit_id := cit_id
    task_id := task_id
    doi := d.doi
    citation_pmid := d.citation_pmid
    citation_url := d.citation_url
    citation_desc := d.citation_desc }

/-- Result of `process_citation`: the summary row, the updated store and
the log events emitted. -/
structure ProcResult where
  row : Row
  store : Store
  log : List LogEvent

/-- `process_citation` (lines 77-156).  Mirrors the source exactly: in the
conflict branch the assignment `citation_details = existing_details` sits
INSIDE the `if task_id not in related_tasks` guard, so a conflicting
citation from a task already recorded in `related_tasks` overwrites the
stored entity with the freshly built one. -/
def process_citation (pyHash : String → Int) (c : Citation) (task_id : String)
    (store : Store) : ProcResult :=
  match store (extract_citation_id pyHash c) with
  | none =>
      { row := rowOf (extract_citation_id pyHash c) task_id (buildCitationDetails pyHash c task_id)
        store := Store.set store (extract_citation_id pyHash c)
          (.ok (buildCitationDetails pyHash c task_id))
        log := [] }
  | some .corrupt =>
      { row := rowOf (extract_citation_id pyHash c) task_id (buildCitationDetails pyHash c task_id)
        store := Store.set store (extract_citation_id pyHash c)
          (.ok (buildCitationDetails pyHash c task_id))
        log := [.citationReadError (extract_citation_id pyHash c)] }
  | some (.ok existing) =>
      if compare_citation_details existing (buildCitationDetails pyHash c task_id) then
        if task_id ∈ existing.related_tasks then
          { row := rowOf (extract_citation_id pyHash c) task_id existing
            store := Store.set store (extract_citation_id pyHash c) (.ok existing)
            log := [] }
        else
          { row := rowOf (extract_citation_id pyHash c) task_id
              { existing with related_tasks := existing.related_tasks ++ [task_id] }
            store := Store.set store (extract_citation_id pyHash c)
              (.ok { existing with related_tasks := existing.related_tasks ++ [task_id] })
            log := [] }
      else
        if task_id ∈ existing.related_tasks then
          { row := rowOf (extract_citation_id pyHash c) task_id (buildCitationDetails pyHash c task_id)
            store := Store.set store (extract_citation_id pyHash c)
              (.ok (buildCitationDetails pyHash c task_id))
            log := [.conflict (extract_citation_id pyHash c) task_id] }
        else
          { row := rowOf (extract_citation_id pyHash c) task_id
              { existing with related_tasks := existing.related_tasks ++ [task_id] }
            store := Store.set store (extract_citation_id pyHash c)
              (.ok { existing with related_tasks := existing.related_tasks ++ [task_id] })
            log := [.conflict (extract_citation_id pyHash c) task_id] }

/-- State of a task's `{task_id}_details.json`: absent file, unparsable
JSON, or a parsed object whose `citation` key holds the given list
(`task_details.get("citation", [])`). -/
inductive DetailsFile where
  | missing
  | corrupt
  | ok (citations : List Citation)
deriving DecidableEq, Repr

/-- One entry of the `task_data` directory: its name and the state of its
detail file. -/
structure TaskDir where
  name : String
  details : DetailsFile
deriving DecidableEq, Repr

/-- Result of `process_task_citations`: the summary rows of one task, the
updated store and the log events emitted. -/
structure TaskResult where
  rows : List Row
  store : Store
  log : List LogEvent

/-- The `for citation in citations` loop of `process_task_citations`
(lines 191-199): rows accumulated in order, the store threaded through. -/
def processCitationList (pyHash : String → Int) (task_id : String) :
    List Citation → Store → TaskResult
  | [], s => { rows := [], store := s, log := [] }
  | c :: cs, s =>
      let r := process_citation pyHash c task_id s
      let rest := processCitationList pyHash task_id cs r.store
      { rows := r.row :: rest.rows, store := rest.store, log := r.log ++ rest.log }

/-- `process_task_citations` (lines 159-201): missing detail file and JSON
parse errors yield zero rows and a log entry; an empty `citation` list
yields zero rows. -/
def process_task_citations (pyHash : String → Int) (d : TaskDir) (s : Store) :
    TaskResult :=
  match d.details with
  | .missing => { rows := [], store := s, log := [.detailsMissing d.name] }
  | .corrupt => { rows := [], store := s, log := [.detailsReadError d.name] }
  | .ok citations =>
      if citations.isEmpty then { rows := [], store := s, log := [.noCitations d.name] }
      else processCitationList pyHash d.name citations s

/-- The discovery filter of lines 231-235: directory names starting with
`trm_` or `tsk_`. -/
def isTaskDirName (s : String) : Bool :=
  listStartsWith "trm_".toList s.toList || listStartsWith "tsk_".toList s.toList

/-- Accumulator of the `for task_dir in task_dirs` loop (lines 242-250). -/
structure AggState where
  rows : List Row
  num_tasks : Nat
  store : Store
  log : List LogEvent

/-- The aggregation loop: rows extended, `num_tasks_processed` incremented
only when a task contributed at least one row. -/
def processTaskDirs (pyHash : String → Int) : List TaskDir → Store → AggState
  | [], s => { rows := [], num_tasks := 0, store := s, log := [] }
  | d :: ds, s =>
      let r := process_task_citations pyHash d s
      let rest := processTaskDirs pyHash ds r.store
      { rows := r.rows ++ rest.rows
        num_tasks := (if r.rows.isEmpty then 0 else 1) + rest.num_tasks
        store := rest.store
        log := r.log ++ rest.log }

/-- The filesystem input of `summarize_citations`: existence of the root
and of `task_data`, and the entries of `task_data`. -/
structure CogatInput where
  rootExists : Bool
  taskDataExists : Bool
  dirs : List TaskDir
deriving Repr

/-- Result of `summarize_citations`: the returned triple, the final store,
the content written to `citation_summary.tsv` (`none` when no file is
written), and the log. -/
structure SummarizeResult where
  success : Bool
  num_tasks : Nat
  num_citations : Nat
  store : Store
  written : Option (List Row)
  log : List LogEvent

/-- The task directories the aggregator discovers. -/
def filteredDirs (input : CogatInput) : List TaskDir :=
  input.dirs.filter (fun d => isTaskDirName d.name)

/-- `summarize_citations` (lines 204-282).  A missing root or `task_data`
directory aborts with `(False, 0, 0)`; zero accumulated rows yields
`(False, 0, 0)` and no output file; otherwise the table is written and
`(True, num_tasks_processed, len(rows))` returned. -/
def summarize_citations (pyHash : String → Int) (input : CogatInput) (s0 : Store) :
    SummarizeResult :=
  if input.rootExists = false then
    { success := false, num_tasks := 0, num_citations := 0
      store := s0, written := none, log := [.rootMissing] }
  else if input.taskDataExists = false then
    { success := false, num_tasks := 0, num_citations := 0
      store := s0, written := none, log := [.taskDataMissing] }
  else
    let agg := processTaskDirs pyHash (filteredDirs input) s0
    if agg.rows.isEmpty then
      { success := false, num_tasks := 0, num_citations := 0
        store := agg.store, written := none, log := agg.log }
    else
      { success := true, num_tasks := agg.num_tasks, num_citations := agg.rows.length
        store := agg.store, written := some agg.rows, log := agg.log }

/- Derived notions used to state and prove the claims. -/

/-- The five fields `compare_citation_details` inspects, read off a
persisted entity. -/
def keyOf (d : CitationDetails) : String × String × String × String × String :=
  (d.id, d.citation_pmid, d.citation_url, d.citation_desc, d.doi)

/-- The same five fields as they appear in the entity freshly built from a
citation (independent of the contributing task). -/
def citKey (pyHash : String → Int) (c : Citation) :
    String × String × String × String × String :=
  (extract_citation_id pyHash c, c.citation_pmid.getD "", c.citation_url.getD "",
    c.citation_desc.getD "", c.doi.getD "")

/-- The summary row a (task, citation) pair produces when no conflicting
entity interferes. -/
def canonicalRow (pyHash : String → Int) (t : String) (c : Citation) : Row :=
  { cit_id := extract_citation_id pyHash c
    task_id := t
    doi := c.doi.getD ""
    citation_pmid := c.citation_pmid.getD ""
    citation_url := c.citation_url.getD ""
    citation_desc := c.citation_desc.getD "" }

/-- The (task id, citation) pairs one task directory contributes. -/
def pairsOfDir (d : TaskDir) : List (String × Citation) :=
  match d.details with
  | .ok cs => cs.map (fun c => (d.name, c))
  | _ => []

/-- The (task id, citation) pairs a list of task directories contributes,
in processing order. -/
def pairsOfDirs : List TaskDir → List (String × Citation)
  | [] => []
  | d :: ds => pairsOfDir d ++ pairsOfDirs ds

/-- Processing a flat list of (task id, citation) pairs: the rows produced
and the final store. -/
def processPairs (pyHash : String → Int) :
    List (String × Citation) → Store → List Row × Store
  | [], s => ([], s)
  | p :: ps, s =>
      let r := process_citation pyHash p.2 p.1 s
      let rest := processPairs pyHash ps r.store
      (r.row :: rest.1, rest.2)

/-- All citations the aggregator will process for a given input. -/
def citationsOfInput (input : CogatInput) : List Citation :=
  (pairsOfDirs (filteredDirs input)).map (fun p => p.2)

/-- Conflict-freedom: any two citations of the list resolving to the same
derived identifier agree on the five compared fields. -/
def ConflictFree (pyHash : String → Int) (cits : List Citation) : Prop :=
  ∀ c ∈ cits, ∀ c2 ∈ cits,
    extract_citation_id pyHash c = extract_citation_id pyHash c2 →
    citKey pyHash c = citKey pyHash c2

/-- A store compatible with the citation list: every present entry is
parseable, and agrees on the compared fields with every citation of the
list that resolves to its key. -/
def GoodStore (pyHash : String → Int) (cits : List Citation) (s : Store) : Prop :=
  ∀ X v, s X = some v → ∃ e, v = StoredFile.ok e ∧
    ∀ c ∈ cits, extract_citation_id pyHash c = X → keyOf e = citKey pyHash c

/-- Every pair's task is already recorded in the stored entity of its
citation's identifier. -/
def Saturated (pyHash : String → Int) (ps : List (String × Citation)) (s : Store) :
    Prop :=
  ∀ p ∈ ps, ∃ e, s (extract_citation_id pyHash p.2) = some (StoredFile.ok e) ∧
    p.1 ∈ e.related_tasks

/-- Whether a task directory contributes at least one summary row
(independently of the store). -/
def taskHasRows (d : TaskDir) : Bool :=
  match d.details with
  | .ok cs => !cs.isEmpty
  | _ => false

/- Concrete sample data used by counterexamples and witnesses. -/

/-- A concrete stand-in for Python's process-seeded string hash. -/
def phash0 : String → Int := fun _ => 0

/-- Citation with pubmed id `12345` and doi `10.1/a`. -/
def cA : Citation := { citation_pmid := some "12345", doi := some "10.1/a" }

/-- Citation with pubmed id `12345` but conflicting doi `10.1/b`. -/
def cB : Citation := { citation_pmid := some "12345", doi := some "10.1/b" }

/-- Persisted entity for `pmid_12345` with doi `10.1/a`, already related to
task `T2`. -/
def eC1 : CitationDetails :=
  { id := "pmid_12345", citation_pmid := "12345", citation_url := ""
    citation_desc := "", doi := "10.1/a", citation_pubname := ""
    citation_authors := "", citation_pubdate := "", citation_type := ""
    citation_source := "", citation_comment := "", related_tasks := ["T2"] }

/-- The same entity but related to tasks `T1` and `T2`. -/
def eC2 : CitationDetails := { eC1 with related_tasks := ["T1", "T2"] }

/-- Store holding `eC1` under `pmid_12345`. -/
def storeC1 : Store := Store.set emptyStore "pmid_12345" (.ok eC1)

/-- Store holding `eC2` under `pmid_12345`. -/
def storeC2 : Store := Store.set emptyStore "pmid_12345" (.ok eC2)

/-- Store holding `eC1` under `pmid_12345`, related to `T1` only. -/
def storeC1a : Store :=
  Store.set emptyStore "pmid_12345" (.ok { eC1 with related_tasks := ["T1"] })

/-- Store whose `pmid_12345/citation_details.json` is unparsable. -/
def storeCor : Store := Store.set emptyStore "pmid_12345" StoredFile.corrupt

/-- Input with two tasks citing the same pubmed id with conflicting dois. -/
def inputC3 : CogatInput :=
  { rootExists := true, taskDataExists := true
    dirs := [{ name := "trm_T1", details := .ok [cA] },
             { name := "trm_T2", details := .ok [cB] }] }

/-- Conflict-free input: two tasks with identical citations, one directory
whose name fails the discovery filter, and one zero-citation task. -/
def inputW : CogatInput :=
  { rootExists := true, taskDataExists := true
    dirs := [{ name := "trm_T1", details := .ok [cA] },
             { name := "trm_T2", details := .ok [cA] },
             { name := "other_T3", details := .ok [cB] },
             { name := "tsk_T4", details := .ok [] }] }

/-- The directories of `inputW` preceding an inserted broken task. -/
def dirsPre : List TaskDir := [{ name := "trm_T1", details := .ok [cA] }]

/-- A discovered task directory whose detail JSON is unparsable. -/
def dBad : TaskDir := { name := "trm_bad", details := .corrupt }

/-- The directories of `inputW` following the inserted broken task. -/
def dirsPost : List TaskDir :=
  [{ name := "trm_T2", details := .ok [cA] },
   { name := "other_T3", details := .ok [cB] },
   { name := "tsk_T4", details := .ok [] }]

/-- First summary row produced for `inputW`. -/
def rowW1 : Row :=
  { cit_id := "pmid_12345", task_id := "trm_T1", doi := "10.1/a"
    citation_pmid := "12345", citation_url := "", citation_desc := "" }

/-- Second summary row produced for `inputW`. -/
def rowW2 : Row := { rowW1 with task_id := "trm_T2" }

/-- Input whose `task_data` directory is missing. -/
def inputNoTaskData : CogatInput :=
  { rootExists := true, taskDataExists := false, dirs := [] }

/-- Input whose root directory is missing. -/
def inputNoRoot : CogatInput :=
  { rootExists := false, taskDataExists := false, dirs := [] }

/-- Input whose only discovered task has no citations. -/
def inputEmptyTask : CogatInput :=
  { rootExists := true, taskDataExists := true
    dirs := [{ name := "trm_T1", details := .ok [] }] }

/-- Citation with an explicit id. -/
def cId : Citation := { id := some "explicit_7", citation_pmid := some "99" }

/-- Citation resolvable only through its url. -/
def cUrl : Citation := { citation_url := some "http://x.com/abc/" }

/-- Citation resolvable only through its description. -/
def cDesc : Citation := { citation_desc := some "Foo" }

/- Basic lemmas about the store and the compared field set. -/

theorem Store.set_self {s : Store} {k : String} {v : StoredFile} (h : s k = some v) :
    Store.set s k v = s := by
  funext k2
  by_cases hk : k2 = k
  · subst hk; simp [Store.set, h]
  · simp [Store.set, hk]

theorem Store.set_same (s : Store) (k : String) (v : StoredFile) :
    Store.set s k v k = some v := by
  simp [Store.set]

theorem Store.set_other (s : Store) (k k2 : String) (v : StoredFile) (h : k2 ≠ k) :
    Store.set s k v k2 = s k2 := by
  simp [Store.set, h]

theorem keyOf_build (pyHash : String → Int) (c : Citation) (t : String) :
    keyOf (buildCitationDetails pyHash c t) = citKey pyHash c := rfl

theorem keyOf_update (e : CitationDetails) (l : List String) :
    keyOf { e with related_tasks := l } = keyOf e := rfl

theorem compare_iff (e f : CitationDetails) :
    compare_citation_details e f = true ↔ keyOf e = keyOf f := by
  simp [compare_citation_details, keyOf, Prod.ext_iff, and_assoc]

theorem rowOf_canonical (pyHash : String → Int) (t : String) (c : Citation)
    (e : CitationDetails) (h : keyOf e = citKey pyHash c) :
    rowOf (extract_citation_id pyHash c) t e = canonicalRow pyHash t c := by
  simp only [keyOf, citKey, Prod.mk.injEq] at h
  obtain ⟨h1, h2, h3, h4, h5⟩ := h
  simp [rowOf, canonicalRow, h2, h3, h4, h5]

theorem GoodStore.set_key (pyHash : String → Int) (cits : List Citation)
    (hfree : ConflictFree pyHash cits) {s : Store} (hs : GoodStore pyHash cits s)
    {c : Citation} (hc : c ∈ cits) {e2 : CitationDetails}
    (hkey : keyOf e2 = citKey pyHash c) :
    GoodStore pyHash cits
      (Store.set s (extract_citation_id pyHash c) (StoredFile.ok e2)) := by
  intro Y v hY
  by_cases hYX : Y = extract_citation_id pyHash c
  · subst hYX
    rw [Store.set_same] at hY
    refine ⟨e2, by cases hY; rfl, fun c2 hc2 hid => ?_⟩
    rw [hkey]
    exact hfree c hc c2 hc2 hid.symm
  · rw [Store.set_other _ _ _ _ hYX] at hY
    exact hs Y v hY

/-- One `process_citation` call from a store compatible with a
conflict-free citation list: the row is the canonical one, the store stays
compatible, every stored entity survives with its `related_tasks` intact,
and afterwards the task is recorded for the citation's identifier. -/
theorem process_citation_good_step (pyHash : String → Int) (cits : List Citation)
    (hfree : ConflictFree pyHash cits) (c : Citation) (hc : c ∈ cits)
    (t : String) (s : Store) (hs : GoodStore pyHash cits s) :
    (process_citation pyHash c t s).row = canonicalRow pyHash t c ∧
    GoodStore pyHash cits (process_citation pyHash c t s).store ∧
    (∀ Y e, s Y = some (StoredFile.ok e) → ∃ e2,
      (process_citation pyHash c t s).store Y = some (StoredFile.ok e2) ∧
      ∀ τ ∈ e.related_tasks, τ ∈ e2.related_tasks) ∧
    (∃ e, (process_citation pyHash c t s).store (extract_citation_id pyHash c)
      = some (StoredFile.ok e) ∧ t ∈ e.related_tasks) := by
  rcases hX : s (extract_citation_id pyHash c) with _ | v
  · simp only [process_citation, hX]
    refine ⟨rowOf_canonical pyHash t c _ (keyOf_build pyHash c t),
      GoodStore.set_key pyHash cits hfree hs hc (keyOf_build pyHash c t), ?_, ?_⟩
    · intro Y e hY
      by_cases hYX : Y = extract_citation_id pyHash c
      · rw [hYX, hX] at hY
        exact absurd hY (by simp)
      · exact ⟨e, by rw [Store.set_other _ _ _ _ hYX]; exact hY, fun τ hτ => hτ⟩
    · exact ⟨buildCitationDetails pyHash c t, Store.set_same .., by
        simp [buildCitationDetails]⟩
  · obtain ⟨e, rfl, hkey⟩ := hs _ v hX
    have hkeyc : keyOf e = citKey pyHash c := hkey c hc rfl
    have hcomp : compare_citation_details e (buildCitationDetails pyHash c t) = true := by
      rw [compare_iff, keyOf_build]
      exact hkeyc
    by_cases hmem : t ∈ e.related_tasks
    · simp only [process_citation, hX, hcomp, if_true, hmem, if_pos]
      refine ⟨rowOf_canonical pyHash t c e hkeyc,
        GoodStore.set_key pyHash cits hfree hs hc hkeyc, ?_, ?_⟩
      · intro Y e3 hY
        by_cases hYX : Y = extract_citation_id pyHash c
        · subst hYX
          rw [hX] at hY
          cases hY
          exact ⟨e, Store.set_same .., fun τ hτ => hτ⟩
        · exact ⟨e3, by rw [Store.set_other _ _ _ _ hYX]; exact hY, fun τ hτ => hτ⟩
      · exact ⟨e, Store.set_same .., hmem⟩
    · simp only [process_citation, hX, hcomp, if_true, hmem, if_neg, not_false_iff]
      have hkey2 : keyOf { e with related_tasks := e.related_tasks ++ [t] }
          = citKey pyHash c := by rw [keyOf_update]; exact hkeyc
      refine ⟨rowOf_canonical pyHash t c _ hkey2,
        GoodStore.set_key pyHash cits hfree hs hc hkey2, ?_, ?_⟩
      · intro Y e3 hY
        by_cases hYX : Y = extract_citation_id pyHash c
        · subst hYX
          rw [hX] at hY
          cases hY
          exact ⟨{ e with related_tasks := e.related_tasks ++ [t] }, Store.set_same ..,
            fun τ hτ => by simp [List.mem_append, hτ]⟩
        · exact ⟨e3, by rw [Store.set_other _ _ _ _ hYX]; exact hY, fun τ hτ => hτ⟩
      · exact ⟨{ e with related_tasks := e.related_tasks ++ [t] }, Store.set_same ..,
          by simp⟩

/-- Folding a conflict-free pair list from a compatible store: rows are the
canonical ones, compatibility is preserved, stored `related_tasks` survive,
and every processed task ends up recorded. -/
theorem processPairs_from_good (pyHash : String → Int) (cits : List Citation)
    (hfree : ConflictFree pyHash cits) (ps : List (String × Citation)) :
    ∀ s : Store, (∀ p ∈ ps, p.2 ∈ cits) → GoodStore pyHash cits s →
      (processPairs pyHash ps s).1 = ps.map (fun p => canonicalRow pyHash p.1 p.2) ∧
      GoodStore pyHash cits (processPairs pyHash ps s).2 ∧
      (∀ Y e, s Y = some (StoredFile.ok e) → ∃ e2,
        (processPairs pyHash ps s).2 Y = some (StoredFile.ok e2) ∧
        ∀ τ ∈ e.related_tasks, τ ∈ e2.related_tasks) ∧
      Saturated pyHash ps (processPairs pyHash ps s).2 := by
  induction ps with
  | nil =>
      intro s hmem hs
      exact ⟨rfl, hs, fun Y e hY => ⟨e, hY, fun τ hτ => hτ⟩,
        fun p hp => absurd hp (List.not_mem_nil p)⟩
  | cons p ps ih =>
      intro s hmem hs
      obtain ⟨hrow, hgood, hmono, hsat⟩ :=
        process_citation_good_step pyHash cits hfree p.2
          (hmem p (List.mem_cons_self p ps)) p.1 s hs
      obtain ⟨ihrows, ihgood, ihmono, ihsat⟩ :=
        ih (process_citation pyHash p.2 p.1 s).store
          (fun q hq => hmem q (List.mem_cons_of_mem p hq)) hgood
      refine ⟨?_, ?_, ?_, ?_⟩
      · simp only [processPairs, List.map_cons]
        rw [hrow, ihrows]
      · simpa only [processPairs] using ihgood
      · intro Y e hY
        obtain ⟨e2, he2, hsub⟩ := hmono Y e hY
        obtain ⟨e3, he3, hsub2⟩ := ihmono Y e2 he2
        exact ⟨e3, by simpa only [processPairs] using he3,
          fun τ hτ => hsub2 τ (hsub τ hτ)⟩
      · intro q hq
        rcases List.mem_cons.mp hq with rfl | hq2
        · obtain ⟨e, he, hrt⟩ := hsat
          obtain ⟨e2, he2, hsub⟩ := ihmono _ e he
          exact ⟨e2, by simpa only [processPairs] using he2, hsub q.1 hrt⟩
        · obtain ⟨e, he, hrt⟩ := ihsat q hq2
          exact ⟨e, by simpa only [processPairs] using he, hrt⟩

/-- A saturated compatible store is a fixed point: reprocessing the pairs
produces the same canonical rows and leaves the store untouched. -/
theorem processPairs_fixpoint (pyHash : String → Int) (cits : List Citation)
    (ps : List (String × Citation)) :
    ∀ s : Store, (∀ p ∈ ps, p.2 ∈ cits) → GoodStore pyHash cits s →
      Saturated pyHash ps s →
      processPairs pyHash ps s = (ps.map (fun p => canonicalRow pyHash p.1 p.2), s) := by
  induction ps with
  | nil => intro s _ _ _; rfl
  | cons p ps ih =>
      intro s hmem hs hsat
      obtain ⟨e, hX, hrt⟩ := hsat p (List.mem_cons_self p ps)
      have hkeyc : keyOf e = citKey pyHash p.2 := by
        obtain ⟨e2, he2, hkey⟩ := hs _ _ hX
        cases he2
        exact hkey p.2 (hmem p (List.mem_cons_self p ps)) rfl
      have hcomp : compare_citation_details e (buildCitationDetails pyHash p.2 p.1)
          = true := by
        rw [compare_iff, keyOf_build]
        exact hkeyc
      have hstep : process_citation pyHash p.2 p.1 s =
          { row := rowOf (extract_citation_id pyHash p.2) p.1 e, store := s
            log := [] } := by
        simp only [process_citation, hX, hcomp, if_true, hrt, if_pos]
        rw [Store.set_self hX]
      simp only [processPairs, hstep, List.map_cons]
      rw [ih s (fun q hq => hmem q (List.mem_cons_of_mem p hq)) hs
        (fun q hq => hsat q (List.mem_cons_of_mem p hq))]
      rw [rowOf_canonical pyHash p.1 p.2 e hkeyc]

/-- The citation loop of one task produces the same rows and store as the
flat pair fold. -/
theorem processCitationList_bridge (pyHash : String → Int) (t : String)
    (cs : List Citation) : ∀ s : Store,
    (processCitationList pyHash t cs s).rows
      = (processPairs pyHash (cs.map (fun c => (t, c))) s).1 ∧
    (processCitationList pyHash t cs s).store
      = (processPairs pyHash (cs.map (fun c => (t, c))) s).2 := by
  induction cs with
  | nil => intro s; exact ⟨rfl, rfl⟩
  | cons c cs ih =>
      intro s
      simp only [processCitationList, List.map_cons, processPairs]
      exact ⟨by rw [(ih _).1], (ih _).2⟩

/-- `process_task_citations` produces the same rows and store as the flat
pair fold of the task's pairs. -/
theorem process_task_bridge (pyHash : String → Int) (d : TaskDir) (s : Store) :
    (process_task_citations pyHash d s).rows
      = (processPairs pyHash (pairsOfDir d) s).1 ∧
    (process_task_citations pyHash d s).store
      = (processPairs pyHash (pairsOfDir d) s).2 := by
  rcases hd : d.details with _ | _ | cs
  · simp [process_task_citations, pairsOfDir, hd, processPairs]
  · simp [process_task_citations, pairsOfDir, hd, processPairs]
  · rcases cs with _ | ⟨c, cs2⟩
    · simp [process_task_citations, pairsOfDir, hd, processPairs]
    · simp only [process_task_citations, pairsOfDir, hd, List.isEmpty_cons,
        Bool.false_eq_true, if_false]
      exact processCitationList_bridge pyHash d.name (c :: cs2) s

/-- The pair fold produces one row per pair. -/
theorem processPairs_length (pyHash : String → Int) (ps : List (String × Citation)) :
    ∀ s, (processPairs pyHash ps s).1.length = ps.length := by
  induction ps with
  | nil => intro s; rfl
  | cons p ps ih => intro s; simp [processPairs, ih]

/-- Whether a task contributes rows is independent of the store. -/
theorem process_task_rows_isEmpty (pyHash : String → Int) (d : TaskDir) (s : Store) :
    (process_task_citations pyHash d s).rows.isEmpty = !taskHasRows d := by
  rcases hd : d.details with _ | _ | cs
  · simp [process_task_citations, taskHasRows, hd]
  · simp [process_task_citations, taskHasRows, hd]
  · rcases cs with _ | ⟨c, cs2⟩
    · simp [process_task_citations, taskHasRows, hd]
    · simp [process_task_citations, taskHasRows, hd, processCitationList]

/-- The pair fold over an appended list: rows concatenate and the store
threads through. -/
theorem processPairs_append (pyHash : String → Int)
    (ps qs : List (String × Citation)) : ∀ s,
    processPairs pyHash (ps ++ qs) s
      = ((processPairs pyHash ps s).1
          ++ (processPairs pyHash qs (processPairs pyHash ps s).2).1,
         (processPairs pyHash qs (processPairs pyHash ps s).2).2) := by
  induction ps with
  | nil => intro s; rfl
  | cons p ps ih => intro s; simp [processPairs, ih]

/-- The aggregation loop equals the flat pair fold, and counts exactly the
tasks that contribute rows. -/
theorem processTaskDirs_bridge (pyHash : String → Int) (ds : List TaskDir) :
    ∀ s, (processTaskDirs pyHash ds s).rows
        = (processPairs pyHash (pairsOfDirs ds) s).1 ∧
      (processTaskDirs pyHash ds s).store
        = (processPairs pyHash (pairsOfDirs ds) s).2 ∧
      (processTaskDirs pyHash ds s).num_tasks
        = (ds.filter taskHasRows).length := by
  induction ds with
  | nil => intro s; exact ⟨rfl, rfl, rfl⟩
  | cons d ds ih =>
      intro s
      obtain ⟨h1, h2⟩ := process_task_bridge pyHash d s
      obtain ⟨i1, i2, i3⟩ := ih (process_task_citations pyHash d s).store
      have happ := processPairs_append pyHash (pairsOfDir d) (pairsOfDirs ds) s
      refine ⟨?_, ?_, ?_⟩
      · simp only [processTaskDirs, pairsOfDirs, happ]
        rw [h1, i1, h2]
      · simp only [processTaskDirs, pairsOfDirs, happ]
        rw [i2, h2]
      · simp only [processTaskDirs, List.filter_cons, process_task_rows_isEmpty, i3]
        rcases hh : taskHasRows d with _ | _
        · simp
        · simp [Nat.add_comm]

/-- `process_citation` only ever writes the derived identifier's file. -/
theorem process_citation_store_other (pyHash : String → Int) (c : Citation)
    (t : String) (s : Store) (Y : String)
    (hY : Y ≠ extract_citation_id pyHash c) :
    (process_citation pyHash c t s).store Y = s Y := by
  rcases hX : s (extract_citation_id pyHash c) with _ | v
  · simp only [process_citation, hX]
    exact Store.set_other _ _ _ _ hY
  · rcases v with e | _
    · simp only [process_citation, hX]
      split_ifs <;> exact Store.set_other _ _ _ _ hY
    · simp only [process_citation, hX]
      exact Store.set_other _ _ _ _ hY

/-- Unfolding: missing root directory. -/
theorem summarize_eq_of_root_missing (pyHash : String → Int) (input : CogatInput)
    (s0 : Store) (h : input.rootExists = false) :
    summarize_citations pyHash input s0
      = { success := false, num_tasks := 0, num_citations := 0, store := s0
          written := none, log := [.rootMissing] } := by
  simp [summarize_citations, h]

/-- Unfolding: missing `task_data` directory. -/
theorem summarize_eq_of_taskdata_missing (pyHash : String → Int) (input : CogatInput)
    (s0 : Store) (h1 : input.rootExists = true) (h2 : input.taskDataExists = false) :
    summarize_citations pyHash input s0
      = { success := false, num_tasks := 0, num_citations := 0, store := s0
          written := none, log := [.taskDataMissing] } := by
  simp [summarize_citations, h1, h2]

/-- Unfolding: zero accumulated rows. -/
theorem summarize_eq_of_no_rows (pyHash : String → Int) (input : CogatInput)
    (s0 : Store) (h1 : input.rootExists = true) (h2 : input.taskDataExists = true)
    (h3 : (processTaskDirs pyHash (filteredDirs input) s0).rows = []) :
    summarize_citations pyHash input s0
      = { success := false, num_tasks := 0, num_citations := 0
          store := (processTaskDirs pyHash (filteredDirs input) s0).store
          written := none
          log := (processTaskDirs pyHash (filteredDirs input) s0).log } := by
  simp [summarize_citations, h1, h2, h3]

/-- Unfolding: at least one row accumulated. -/
theorem summarize_eq_of_rows (pyHash : String → Int) (input : CogatInput)
    (s0 : Store) (h1 : input.rootExists = true) (h2 : input.taskDataExists = true)
    (h3 : (processTaskDirs pyHash (filteredDirs input) s0).rows ≠ []) :
    summarize_citations pyHash input s0
      = { success := true
          num_tasks := (processTaskDirs pyHash (filteredDirs input) s0).num_tasks
          num_citations := (processTaskDirs pyHash (filteredDirs input) s0).rows.length
          store := (processTaskDirs pyHash (filteredDirs input) s0).store
          written := some (processTaskDirs pyHash (filteredDirs input) s0).rows
          log := (processTaskDirs pyHash (filteredDirs input) s0).log } := by
  simp [summarize_citations, h1, h2, List.isEmpty_iff, h3]

/-- Two aggregations with equal row list, store and task count yield equal
`summarize_citations` results (log aside). -/
theorem summarize_congr (pyHash : String → Int) (in1 in2 : CogatInput)
    (s1 s2 : Store)
    (h1 : in1.rootExists = true) (h2 : in1.taskDataExists = true)
    (h3 : in2.rootExists = true) (h4 : in2.taskDataExists = true)
    (hrows : (processTaskDirs pyHash (filteredDirs in1) s1).rows
      = (processTaskDirs pyHash (filteredDirs in2) s2).rows)
    (hstore : (processTaskDirs pyHash (filteredDirs in1) s1).store
      = (processTaskDirs pyHash (filteredDirs in2) s2).store)
    (hnum : (processTaskDirs pyHash (filteredDirs in1) s1).num_tasks
      = (processTaskDirs pyHash (filteredDirs in2) s2).num_tasks) :
    (summarize_citations pyHash in1 s1).success
      = (summarize_citations pyHash in2 s2).success ∧
    (summarize_citations pyHash in1 s1).num_tasks
      = (summarize_citations pyHash in2 s2).num_tasks ∧
    (summarize_citations pyHash in1 s1).num_citations
      = (summarize_citations pyHash in2 s2).num_citations ∧
    (summarize_citations pyHash in1 s1).written
      = (summarize_citations pyHash in2 s2).written ∧
    (summarize_citations pyHash in1 s1).store
      = (summarize_citations pyHash in2 s2).store := by
  by_cases hh : (processTaskDirs pyHash (filteredDirs in2) s2).rows = []
  · rw [summarize_eq_of_no_rows pyHash in1 s1 h1 h2 (hrows.trans hh),
      summarize_eq_of_no_rows pyHash in2 s2 h3 h4 hh]
    exact ⟨rfl, rfl, rfl, rfl, hstore⟩
  · rw [summarize_eq_of_rows pyHash in1 s1 h1 h2 (fun hc => hh (hrows.symm.trans hc)),
      summarize_eq_of_rows pyHash in2 s2 h3 h4 hh]
    exact ⟨rfl, by rw [hnum], by rw [hrows], by rw [hrows], hstore⟩

/-- Tasks contributing no pairs contribute no filtered entry with rows. -/
theorem filter_taskHasRows_of_pairs_nil (ds : List TaskDir)
    (h : pairsOfDirs ds = []) : ds.filter taskHasRows = [] := by
  induction ds with
  | nil => rfl
  | cons d ds ih =>
      simp only [pairsOfDirs, List.append_eq_nil] at h
      obtain ⟨h1, h2⟩ := h
      have hd : taskHasRows d = false := by
        rcases hdet : d.details with _ | _ | cs
        · simp [taskHasRows, hdet]
        · simp [taskHasRows, hdet]
        · rw [pairsOfDir, hdet] at h1
          simp only [List.map_eq_nil_iff] at h1
          simp [taskHasRows, hdet, h1]
      simp [List.filter_cons, hd, ih h2]

/-- Dropping a rowless, store-preserving task directory from the
aggregation loop changes nothing but the log. -/
theorem processTaskDirs_skip (pyHash : String → Int) (d : TaskDir)
    (hbad : d.details = DetailsFile.missing ∨ d.details = DetailsFile.corrupt)
    (pre post : List TaskDir) : ∀ s : Store,
    (processTaskDirs pyHash (pre ++ d :: post) s).rows
      = (processTaskDirs pyHash (pre ++ post) s).rows ∧
    (processTaskDirs pyHash (pre ++ d :: post) s).store
      = (processTaskDirs pyHash (pre ++ post) s).store ∧
    (processTaskDirs pyHash (pre ++ d :: post) s).num_tasks
      = (processTaskDirs pyHash (pre ++ post) s).num_tasks := by
  induction pre with
  | nil =>
      intro s
      rcases hbad with h | h
      · simp [processTaskDirs, process_task_citations, h]
      · simp [processTaskDirs, process_task_citations, h]
  | cons a pre ih =>
      intro s
      obtain ⟨i1, i2, i3⟩ := ih (process_task_citations pyHash a s).store
      simp only [List.cons_append, processTaskDirs, List.append_eq]
      exact ⟨by rw [i1], by rw [i2], by rw [i3]⟩

/-- C4: the Citation Identity Resolver applies its rules in priority order:
(1) a truthy explicit `id` verbatim; (2) else `"pmid_" ++ pmid` for a
truthy pubmed id; (3) else, for a truthy url whose last non-empty
`/`-segment not starting with `"http"` exists, `"url_" ++ segment`;
(4) else `"desc_" ++ (pyHash description) % 1000000`, the description
defaulting to `"unknown"`. -/
theorem extract_citation_id_priority (pyHash : String → Int) (c : Citation) :
    (truthy c.id = true → extract_citation_id pyHash c = c.id.getD "") ∧
    (truthy c.id = false → truthy c.citation_pmid = true →
      extract_citation_id pyHash c = "pmid_" ++ c.citation_pmid.getD "") ∧
    (∀ seg, truthy c.id = false → truthy c.citation_pmid = false →
      truthy c.citation_url = true →
      urlSegment (c.citation_url.getD "") = some seg →
      extract_citation_id pyHash c = "url_" ++ seg) ∧
    (truthy c.id = false → truthy c.citation_pmid = false →
      (truthy c.citation_url = false ∨ urlSegment (c.citation_url.getD "") = none) →
      extract_citation_id pyHash c
        = "desc_" ++ toString (pyHash (c.citation_desc.getD "unknown") % 1000000)) := by
  refine ⟨?_, ?_, ?_, ?_⟩
  · intro h1
    simp [extract_citation_id, h1]
  · intro h1 h2
    simp [extract_citation_id, h1, h2]
  · intro seg h1 h2 h3 h4
    simp [extract_citation_id, h1, h2, h3, h4]
  · intro h1 h2 h3
    rcases h3 with h3 | h3
    · simp [extract_citation_id, h1, h2, h3]
    · rcases hu : truthy c.citation_url with _ | _
      · simp [extract_citation_id, h1, h2, hu]
      · simp [extract_citation_id, h1, h2, hu, h3]

/-- Witness for C4: the four priority rules at concrete citations. -/
theorem extract_citation_id_priority_witness :
    extract_citation_id phash0 cId = cId.id.getD "" ∧
    extract_citation_id phash0 cA = "pmid_" ++ cA.citation_pmid.getD "" ∧
    extract_citation_id phash0 cUrl = "url_" ++ "abc" ∧
    extract_citation_id phash0 cDesc
      = "desc_" ++ toString (phash0 (cDesc.citation_desc.getD "unknown") % 1000000) :=
  ⟨(extract_citation_id_priority phash0 cId).1 (by decide),
   (extract_citation_id_priority phash0 cA).2.1 (by decide) (by decide),
   (extract_citation_id_priority phash0 cUrl).2.2.1 "abc" (by decide) (by decide)
     (by decide) (by decide),
   (extract_citation_id_priority phash0 cDesc).2.2.2 (by decide) (by decide)
     (Or.inl (by decide))⟩

/-- C9: identity resolution is a pure function of the citation (and the
process hash seed), and a citation with no id, pubmed id or url and
description `"Foo"` resolves to `"desc_" ++ (hash "Foo" mod 1000000)`. -/
theorem extract_citation_id_deterministic (pyHash : String → Int) (c : Citation)
    (h1 : truthy c.id = false) (h2 : truthy c.citation_pmid = false)
    (h3 : truthy c.citation_url = false) (h4 : c.citation_desc = some "Foo") :
    extract_citation_id pyHash c = extract_citation_id pyHash c ∧
    extract_citation_id pyHash c = "desc_" ++ toString (pyHash "Foo" % 1000000) := by
  refine ⟨rfl, ?_⟩
  simp [extract_citation_id, h1, h2, h3, h4]

/-- Witness for C9 at the concrete description-only citation. -/
theorem extract_citation_id_deterministic_witness :
    extract_citation_id phash0 cDesc = extract_citation_id phash0 cDesc ∧
    extract_citation_id phash0 cDesc = "desc_" ++ toString (phash0 "Foo" % 1000000) :=
  extract_citation_id_deterministic phash0 cDesc (by decide) (by decide)
    (by decide) rfl

/-- C10: when the persisted `citation_details.json` for the derived
identifier is unparsable, the merger logs the read error and overwrites
the file with the freshly built entity, whose `related_tasks` is exactly
the current task — discarding whatever had accumulated. -/
theorem corrupt_entity_overwritten (pyHash : String → Int) (c : Citation)
    (t : String) (s : Store)
    (hcor : s (extract_citation_id pyHash c) = some StoredFile.corrupt) :
    (process_citation pyHash c t s).store (extract_citation_id pyHash c)
      = some (StoredFile.ok (buildCitationDetails pyHash c t)) ∧
    (buildCitationDetails pyHash c t).related_tasks = [t] ∧
    LogEvent.citationReadError (extract_citation_id pyHash c)
      ∈ (process_citation pyHash c t s).log := by
  simp only [process_citation, hcor]
  exact ⟨Store.set_same .., rfl, by simp⟩

/-- Witness for C10: a corrupt store entry at `pmid_12345`. -/
theorem corrupt_entity_overwritten_witness :
    (process_citation phash0 cB "T1" storeCor).store (extract_citation_id phash0 cB)
      = some (StoredFile.ok (buildCitationDetails phash0 cB "T1")) ∧
    (buildCitationDetails phash0 cB "T1").related_tasks = ["T1"] ∧
    LogEvent.citationReadError (extract_citation_id phash0 cB)
      ∈ (process_citation phash0 cB "T1" storeCor).log :=
  corrupt_entity_overwritten phash0 cB "T1" storeCor (by decide)

/-- C1 (amended): on a field conflict the existing entity's field set is
kept, the task id appended and a conflict logged — PROVIDED the
contributing task id is not already in `related_tasks`.  (When it is, the
code overwrites the entity with the new citation's fields; see the
counterexample.) -/
theorem conflict_keeps_existing_fields (pyHash : String → Int) (c : Citation)
    (t : String) (s : Store) (e : CitationDetails)
    (he : s (extract_citation_id pyHash c) = some (StoredFile.ok e))
    (hconf : compare_citation_details e (buildCitationDetails pyHash c t) = false)
    (hnew : t ∉ e.related_tasks) :
    (process_citation pyHash c t s).store (extract_citation_id pyHash c)
      = some (StoredFile.ok { e with related_tasks := e.related_tasks ++ [t] }) ∧
    (process_citation pyHash c t s).row
      = rowOf (extract_citation_id pyHash c) t
          { e with related_tasks := e.related_tasks ++ [t] } ∧
    LogEvent.conflict (extract_citation_id pyHash c) t
      ∈ (process_citation pyHash c t s).log := by
  have hstep : process_citation pyHash c t s
      = { row := rowOf (extract_citation_id pyHash c) t
            { e with related_tasks := e.related_tasks ++ [t] }
          store := Store.set s (extract_citation_id pyHash c)
            (StoredFile.ok { e with related_tasks := e.related_tasks ++ [t] })
          log := [LogEvent.conflict (extract_citation_id pyHash c) t] } := by
    simp only [process_citation, he, hconf, Bool.false_eq_true, if_false, hnew,
      not_false_iff, if_neg]
  rw [hstep]
  exact ⟨Store.set_same .., rfl, by simp⟩

/-- Witness for C1's amended statement: conflicting doi from a task not yet
related. -/
theorem conflict_keeps_existing_fields_witness :
    (process_citation phash0 cB "T2" storeC1a).store (extract_citation_id phash0 cB)
      = some (StoredFile.ok
          { eC1 with related_tasks := ["T1"] ++ ["T2"] }) ∧
    (process_citation phash0 cB "T2" storeC1a).row
      = rowOf (extract_citation_id phash0 cB) "T2"
          { eC1 with related_tasks := ["T1"] ++ ["T2"] } ∧
    LogEvent.conflict (extract_citation_id phash0 cB) "T2"
      ∈ (process_citation phash0 cB "T2" storeC1a).log :=
  conflict_keeps_existing_fields phash0 cB "T2" storeC1a
    { eC1 with related_tasks := ["T1"] } (by decide) (by decide) (by decide)

/-- Counterexample to C1 as stated: with the conflicting task id already in
`related_tasks`, the written entity is the freshly built one — the new doi
`10.1/b` replaces the existing `10.1/a` instead of being discarded. -/
theorem conflict_policy_counterexample :
    compare_citation_details eC1 (buildCitationDetails phash0 cB "T2") = false ∧
    "T2" ∈ eC1.related_tasks ∧
    storeC1 "pmid_12345" = some (StoredFile.ok eC1) ∧
    (process_citation phash0 cB "T2" storeC1).store "pmid_12345"
      = some (StoredFile.ok (buildCitationDetails phash0 cB "T2")) ∧
    (buildCitationDetails phash0 cB "T2").doi = "10.1/b" ∧
    eC1.doi = "10.1/a" := by decide

/-- C2 (amended): a `process_citation` call leaves every stored
`related_tasks` list equal or extended by one appended, previously absent
task id — PROVIDED the call does not hit the conflict-with-already-related
case at that key (where the list is reset to `[task_id]`; see the
counterexample). -/
theorem related_tasks_monotone (pyHash : String → Int) (c : Citation) (t X : String)
    (s : Store) (e : CitationDetails) (he : s X = some (StoredFile.ok e))
    (hok : X ≠ extract_citation_id pyHash c ∨
      compare_citation_details e (buildCitationDetails pyHash c t) = true ∨
      t ∉ e.related_tasks) :
    ∃ e2, (process_citation pyHash c t s).store X = some (StoredFile.ok e2) ∧
      (e2.related_tasks = e.related_tasks ∨
        (e2.related_tasks = e.related_tasks ++ [t] ∧ t ∉ e.related_tasks)) := by
  by_cases hX : X = extract_citation_id pyHash c
  · subst hX
    rcases hcmp : compare_citation_details e (buildCitationDetails pyHash c t) with _ | _
    · have hnew : t ∉ e.related_tasks := by
        rcases hok with h | h | h
        · exact absurd rfl h
        · rw [hcmp] at h
          exact absurd h (by simp)
        · exact h
      have hstep : (process_citation pyHash c t s).store
          = Store.set s (extract_citation_id pyHash c)
              (StoredFile.ok { e with related_tasks := e.related_tasks ++ [t] }) := by
        simp only [process_citation, he, hcmp, Bool.false_eq_true, if_false, hnew,
          not_false_iff, if_neg]
      rw [hstep]
      exact ⟨{ e with related_tasks := e.related_tasks ++ [t] }, Store.set_same ..,
        Or.inr ⟨rfl, hnew⟩⟩
    · by_cases hmem : t ∈ e.related_tasks
      · have hstep : (process_citation pyHash c t s).store
            = Store.set s (extract_citation_id pyHash c) (StoredFile.ok e) := by
          simp only [process_citation, he, hcmp, if_true, hmem, if_pos]
        rw [hstep]
        exact ⟨e, Store.set_same .., Or.inl rfl⟩
      · have hstep : (process_citation pyHash c t s).store
            = Store.set s (extract_citation_id pyHash c)
                (StoredFile.ok { e with related_tasks := e.related_tasks ++ [t] }) := by
          simp only [process_citation, he, hcmp, if_true, hmem, not_false_iff, if_neg]
        rw [hstep]
        exact ⟨{ e with related_tasks := e.related_tasks ++ [t] }, Store.set_same ..,
          Or.inr ⟨rfl, hmem⟩⟩
  · exact ⟨e, by rw [process_citation_store_other pyHash c t s X hX]; exact he,
      Or.inl rfl⟩

/-- Witness for C2's amended statement: a matching citation appends the new
task id. -/
theorem related_tasks_monotone_witness :
    ∃ e2, (process_citation phash0 cA "T2" storeC1a).store "pmid_12345"
        = some (StoredFile.ok e2) ∧
      (e2.related_tasks = ["T1"] ∨
        (e2.related_tasks = ["T1"] ++ ["T2"] ∧ "T2" ∉ (["T1"] : List String))) :=
  related_tasks_monotone phash0 cA "T2" "pmid_12345" storeC1a
    { eC1 with related_tasks := ["T1"] } (by decide) (Or.inr (Or.inl (by decide)))

/-- Counterexample to C2 as stated: the three-call sequence T1:cA, T2:cA,
T2:cB (cB conflicting on doi) first grows `related_tasks` to
`["T1", "T2"]`, then the third call resets it to `["T2"]` — the list
shrinks and loses `"T1"`. -/
theorem related_tasks_shrink_counterexample :
    (process_citation phash0 cA "T2"
        (process_citation phash0 cA "T1" emptyStore).store).store "pmid_12345"
      = some (StoredFile.ok
          { buildCitationDetails phash0 cA "T1" with related_tasks := ["T1", "T2"] }) ∧
    (process_citation phash0 cB "T2"
        (process_citation phash0 cA "T2"
          (process_citation phash0 cA "T1" emptyStore).store).store).store "pmid_12345"
      = some (StoredFile.ok (buildCitationDetails phash0 cB "T2")) ∧
    "T1" ∈ ({ buildCitationDetails phash0 cA "T1" with
        related_tasks := ["T1", "T2"] } : CitationDetails).related_tasks ∧
    "T1" ∉ (buildCitationDetails phash0 cB "T2").related_tasks := by decide

/-- Counterexample to C3 as stated: over `inputC3` (two tasks citing
`pmid_12345` with conflicting dois) the second run writes a different
summary table and a different persisted entity than the first. -/
theorem idempotence_counterexample :
    (summarize_citations phash0 inputC3
        (summarize_citations phash0 inputC3 emptyStore).store).written
      ≠ (summarize_citations phash0 inputC3 emptyStore).written ∧
    (summarize_citations phash0 inputC3
        (summarize_citations phash0 inputC3 emptyStore).store).store "pmid_12345"
      ≠ (summarize_citations phash0 inputC3 emptyStore).store "pmid_12345" := by
  decide

/-- C3 (amended): the aggregator is idempotent PROVIDED the run is
conflict-free — no two input citations with the same derived identifier
differ on the compared fields, and every pre-existing store entry is
parseable and agrees with the input citations resolving to it.  (The
counterexample shows idempotence fails once a conflict occurs.) -/
theorem summarize_idempotent_of_conflict_free (pyHash : String → Int)
    (input : CogatInput) (s0 : Store)
    (hroot : input.rootExists = true) (htd : input.taskDataExists = true)
    (hfree : ConflictFree pyHash (citationsOfInput input))
    (hgood : GoodStore pyHash (citationsOfInput input) s0) :
    (summarize_citations pyHash input
        (summarize_citations pyHash input s0).store).success
      = (summarize_citations pyHash input s0).success ∧
    (summarize_citations pyHash input
        (summarize_citations pyHash input s0).store).num_tasks
      = (summarize_citations pyHash input s0).num_tasks ∧
    (summarize_citations pyHash input
        (summarize_citations pyHash input s0).store).num_citations
      = (summarize_citations pyHash input s0).num_citations ∧
    (summarize_citations pyHash input
        (summarize_citations pyHash input s0).store).written
      = (summarize_citations pyHash input s0).written ∧
    (summarize_citations pyHash input
        (summarize_citations pyHash input s0).store).store
      = (summarize_citations pyHash input s0).store := by
  have hmem : ∀ p ∈ pairsOfDirs (filteredDirs input), p.2 ∈ citationsOfInput input :=
    fun p hp => List.mem_map_of_mem (fun q => q.2) hp
  obtain ⟨hrows1, hgood1, hmono1, hsat1⟩ :=
    processPairs_from_good pyHash (citationsOfInput input) hfree
      (pairsOfDirs (filteredDirs input)) s0 hmem hgood
  have hfix := processPairs_fixpoint pyHash (citationsOfInput input)
    (pairsOfDirs (filteredDirs input))
    (processPairs pyHash (pairsOfDirs (filteredDirs input)) s0).2 hmem hgood1 hsat1
  obtain ⟨b1r, b1s, b1n⟩ := processTaskDirs_bridge pyHash (filteredDirs input) s0
  have hstore1 : (summarize_citations pyHash input s0).store
      = (processPairs pyHash (pairsOfDirs (filteredDirs input)) s0).2 := by
    by_cases hz : (processTaskDirs pyHash (filteredDirs input) s0).rows = []
    · rw [summarize_eq_of_no_rows pyHash input s0 hroot htd hz]
      exact b1s
    · rw [summarize_eq_of_rows pyHash input s0 hroot htd hz]
      exact b1s
  obtain ⟨b2r, b2s, b2n⟩ := processTaskDirs_bridge pyHash (filteredDirs input)
    (summarize_citations pyHash input s0).store
  refine summarize_congr pyHash input input
    (summarize_citations pyHash input s0).store s0 hroot htd hroot htd ?_ ?_ ?_
  · rw [b2r, b1r, hstore1, hfix, hrows1]
  · rw [b2s, b1s, hstore1, hfix]
  · rw [b2n, b1n]

/-- Witness for C3's amended statement: `inputW` from the empty store. -/
theorem summarize_idempotent_witness :
    (summarize_citations phash0 inputW
        (summarize_citations phash0 inputW emptyStore).store).success
      = (summarize_citations phash0 inputW emptyStore).success ∧
    (summarize_citations phash0 inputW
        (summarize_citations phash0 inputW emptyStore).store).num_tasks
      = (summarize_citations phash0 inputW emptyStore).num_tasks ∧
    (summarize_citations phash0 inputW
        (summarize_citations phash0 inputW emptyStore).store).num_citations
      = (summarize_citations phash0 inputW emptyStore).num_citations ∧
    (summarize_citations phash0 inputW
        (summarize_citations phash0 inputW emptyStore).store).written
      = (summarize_citations phash0 inputW emptyStore).written ∧
    (summarize_citations phash0 inputW
        (summarize_citations phash0 inputW emptyStore).store).store
      = (summarize_citations phash0 inputW emptyStore).store :=
  summarize_idempotent_of_conflict_free phash0 inputW emptyStore rfl rfl
    (by unfold ConflictFree; decide) (fun X v h => nomatch h)

/-- C5: the returned `citation_count` equals the number of rows written to
the summary table — one row per (task, citation) pair — and is zero when
no table is written. -/
theorem citation_count_law (pyHash : String → Int) (input : CogatInput) (s0 : Store) :
    (∀ rs, (summarize_citations pyHash input s0).written = some rs →
      (summarize_citations pyHash input s0).num_citations = rs.length ∧
      rs.length = (pairsOfDirs (filteredDirs input)).length) ∧
    ((summarize_citations pyHash input s0).written = none →
      (summarize_citations pyHash input s0).num_citations = 0) := by
  rcases hroot : input.rootExists with _ | _
  · rw [summarize_eq_of_root_missing pyHash input s0 hroot]
    exact ⟨fun rs hrs => absurd hrs (by simp), fun _ => rfl⟩
  · rcases htd : input.taskDataExists with _ | _
    · rw [summarize_eq_of_taskdata_missing pyHash input s0 hroot htd]
      exact ⟨fun rs hrs => absurd hrs (by simp), fun _ => rfl⟩
    · obtain ⟨b1, b2, b3⟩ := processTaskDirs_bridge pyHash (filteredDirs input) s0
      by_cases hz : (processTaskDirs pyHash (filteredDirs input) s0).rows = []
      · rw [summarize_eq_of_no_rows pyHash input s0 hroot htd hz]
        exact ⟨fun rs hrs => absurd hrs (by simp), fun _ => rfl⟩
      · rw [summarize_eq_of_rows pyHash input s0 hroot htd hz]
        refine ⟨fun rs hrs => ?_, fun hnone => absurd hnone (by simp)⟩
        have hra := Option.some.inj hrs
        subst hra
        refine ⟨rfl, ?_⟩
        rw [b1]
        exact processPairs_length pyHash _ s0

/-- Witness for C5: `inputW` writes exactly the two rows it counts. -/
theorem citation_count_law_witness :
    (summarize_citations phash0 inputW emptyStore).num_citations
      = [rowW1, rowW2].length ∧
    [rowW1, rowW2].length = (pairsOfDirs (filteredDirs inputW)).length :=
  (citation_count_law phash0 inputW emptyStore).1 [rowW1, rowW2] (by decide)

/-- C6: `task_count` counts exactly the discovered tasks contributing at
least one row; a task with an empty citation list contributes zero rows
(no placeholder) and is excluded. -/
theorem task_count_policy (pyHash : String → Int) (input : CogatInput) (s0 : Store)
    (hroot : input.rootExists = true) (htd : input.taskDataExists = true) :
    (summarize_citations pyHash input s0).num_tasks
      = ((filteredDirs input).filter taskHasRows).length ∧
    (∀ (d : TaskDir) (s : Store), d.details = DetailsFile.ok [] →
      (process_task_citations pyHash d s).rows = [] ∧ taskHasRows d = false) := by
  constructor
  · obtain ⟨b1, b2, b3⟩ := processTaskDirs_bridge pyHash (filteredDirs input) s0
    by_cases hz : (processTaskDirs pyHash (filteredDirs input) s0).rows = []
    · rw [summarize_eq_of_no_rows pyHash input s0 hroot htd hz]
      have hlen : (pairsOfDirs (filteredDirs input)).length = 0 := by
        rw [← processPairs_length pyHash (pairsOfDirs (filteredDirs input)) s0,
          ← b1, hz]
        rfl
      rw [filter_taskHasRows_of_pairs_nil _ (List.length_eq_zero.mp hlen)]
      rfl
    · rw [summarize_eq_of_rows pyHash input s0 hroot htd hz]
      exact b3
  · intro d s hd
    exact ⟨by simp [process_task_citations, hd], by simp [taskHasRows, hd]⟩

/-- Witness for C6: `inputW` counts two of its four directories. -/
theorem task_count_policy_witness :
    (summarize_citations phash0 inputW emptyStore).num_tasks
      = ((filteredDirs inputW).filter taskHasRows).length :=
  (task_count_policy phash0 inputW emptyStore rfl rfl).1

/-- C7: a missing root or `task_data` directory and a zero-row run each
yield `(False, 0, 0)`, and in the zero-row case no summary table is
written. -/
theorem failure_reporting (pyHash : String → Int) (input : CogatInput) (s0 : Store) :
    (input.rootExists = false →
      (summarize_citations pyHash input s0).success = false ∧
      (summarize_citations pyHash input s0).num_tasks = 0 ∧
      (summarize_citations pyHash input s0).num_citations = 0 ∧
      (summarize_citations pyHash input s0).written = none) ∧
    (input.taskDataExists = false →
      (summarize_citations pyHash input s0).success = false ∧
      (summarize_citations pyHash input s0).num_tasks = 0 ∧
      (summarize_citations pyHash input s0).num_citations = 0 ∧
      (summarize_citations pyHash input s0).written = none) ∧
    (input.rootExists = true → input.taskDataExists = true →
      (processTaskDirs pyHash (filteredDirs input) s0).rows = [] →
      (summarize_citations pyHash input s0).success = false ∧
      (summarize_citations pyHash input s0).num_tasks = 0 ∧
      (summarize_citations pyHash input s0).num_citations = 0 ∧
      (summarize_citations pyHash input s0).written = none) := by
  refine ⟨fun h => ?_, fun h => ?_, fun h1 h2 h3 => ?_⟩
  · rw [summarize_eq_of_root_missing pyHash input s0 h]
    exact ⟨rfl, rfl, rfl, rfl⟩
  · rcases hroot : input.rootExists with _ | _
    · rw [summarize_eq_of_root_missing pyHash input s0 hroot]
      exact ⟨rfl, rfl, rfl, rfl⟩
    · rw [summarize_eq_of_taskdata_missing pyHash input s0 hroot h]
      exact ⟨rfl, rfl, rfl, rfl⟩
  · rw [summarize_eq_of_no_rows pyHash input s0 h1 h2 h3]
    exact ⟨rfl, rfl, rfl, rfl⟩

/-- Witness for C7: missing root, missing `task_data`, and a zero-row run. -/
theorem failure_reporting_witness :
    ((summarize_citations phash0 inputNoRoot emptyStore).success = false ∧
     (summarize_citations phash0 inputNoRoot emptyStore).num_tasks = 0 ∧
     (summarize_citations phash0 inputNoRoot emptyStore).num_citations = 0 ∧
     (summarize_citations phash0 inputNoRoot emptyStore).written = none) ∧
    ((summarize_citations phash0 inputNoTaskData emptyStore).success = false ∧
     (summarize_citations phash0 inputNoTaskData emptyStore).num_tasks = 0 ∧
     (summarize_citations phash0 inputNoTaskData emptyStore).num_citations = 0 ∧
     (summarize_citations phash0 inputNoTaskData emptyStore).written = none) ∧
    ((summarize_citations phash0 inputEmptyTask emptyStore).success = false ∧
     (summarize_citations phash0 inputEmptyTask emptyStore).num_tasks = 0 ∧
     (summarize_citations phash0 inputEmptyTask emptyStore).num_citations = 0 ∧
     (summarize_citations phash0 inputEmptyTask emptyStore).written = none) :=
  ⟨(failure_reporting phash0 inputNoRoot emptyStore).1 rfl,
   (failure_reporting phash0 inputNoTaskData emptyStore).2.1 rfl,
   (failure_reporting phash0 inputEmptyTask emptyStore).2.2 rfl rfl (by decide)⟩

/-- C8: a discovered task with a missing or unparsable detail file
contributes zero rows, leaves the store untouched, gets the error logged,
and the aggregation over the remaining tasks is unchanged. -/
theorem task_error_isolation (pyHash : String → Int) (d : TaskDir)
    (hbad : d.details = DetailsFile.missing ∨ d.details = DetailsFile.corrupt)
    (hname : isTaskDirName d.name = true) :
    (∀ s : Store, (process_task_citations pyHash d s).rows = [] ∧
      (process_task_citations pyHash d s).store = s ∧
      ((process_task_citations pyHash d s).log = [LogEvent.detailsMissing d.name] ∨
       (process_task_citations pyHash d s).log
         = [LogEvent.detailsReadError d.name])) ∧
    (∀ (pre post : List TaskDir) (s0 : Store),
      (summarize_citations pyHash
          { rootExists := true, taskDataExists := true, dirs := pre ++ d :: post }
          s0).success
        = (summarize_citations pyHash
          { rootExists := true, taskDataExists := true, dirs := pre ++ post }
          s0).success ∧
      (summarize_citations pyHash
          { rootExists := true, taskDataExists := true, dirs := pre ++ d :: post }
          s0).num_tasks
        = (summarize_citations pyHash
          { rootExists := true, taskDataExists := true, dirs := pre ++ post }
          s0).num_tasks ∧
      (summarize_citations pyHash
          { rootExists := true, taskDataExists := true, dirs := pre ++ d :: post }
          s0).num_citations
        = (summarize_citations pyHash
          { rootExists := true, taskDataExists := true, dirs := pre ++ post }
          s0).num_citations ∧
      (summarize_citations pyHash
          { rootExists := true, taskDataExists := true, dirs := pre ++ d :: post }
          s0).written
        = (summarize_citations pyHash
          { rootExists := true, taskDataExists := true, dirs := pre ++ post }
          s0).written ∧
      (summarize_citations pyHash
          { rootExists := true, taskDataExists := true, dirs := pre ++ d :: post }
          s0).store
        = (summarize_citations pyHash
          { rootExists := true, taskDataExists := true, dirs := pre ++ post }
          s0).store) := by
  constructor
  · intro s
    rcases hbad with h | h
    · exact ⟨by simp [process_task_citations, h], by simp [process_task_citations, h],
        Or.inl (by simp [process_task_citations, h])⟩
    · exact ⟨by simp [process_task_citations, h], by simp [process_task_citations, h],
        Or.inr (by simp [process_task_citations, h])⟩
  · intro pre post s0
    have hfil1 : filteredDirs
        { rootExists := true, taskDataExists := true, dirs := pre ++ d :: post }
        = pre.filter (fun x => isTaskDirName x.name)
          ++ d :: post.filter (fun x => isTaskDirName x.name) := by
      simp [filteredDirs, List.filter_append, List.filter_cons, hname]
    have hfil2 : filteredDirs
        { rootExists := true, taskDataExists := true, dirs := pre ++ post }
        = pre.filter (fun x => isTaskDirName x.name)
          ++ post.filter (fun x => isTaskDirName x.name) := by
      simp [filteredDirs, List.filter_append]
    obtain ⟨hr, hs, hn⟩ := processTaskDirs_skip pyHash d hbad
      (pre.filter (fun x => isTaskDirName x.name))
      (post.filter (fun x => isTaskDirName x.name)) s0
    exact summarize_congr pyHash _ _ s0 s0 rfl rfl rfl rfl
      (by rw [hfil1, hfil2]; exact hr) (by rw [hfil1, hfil2]; exact hs)
      (by rw [hfil1, hfil2]; exact hn)

/-- Witness for C8: a corrupt task directory inserted into `inputW`. -/
theorem task_error_isolation_witness :
    (process_task_citations phash0 dBad emptyStore).rows = [] ∧
    (summarize_citations phash0
        { rootExists := true, taskDataExists := true, dirs := dirsPre ++ dBad :: dirsPost }
        emptyStore).written
      = (summarize_citations phash0
        { rootExists := true, taskDataExists := true, dirs := dirsPre ++ dirsPost }
        emptyStore).written :=
  ⟨((task_error_isolation phash0 dBad (Or.inr rfl) (by decide)).1 emptyStore).1,
   ((task_error_isolation phash0 dBad (Or.inr rfl) (by decide)).2 dirsPre dirsPost
      emptyStore).2.2.2.1⟩

end HedTask
